import Mathlib

/-!
Shallow embedding of `betti_core_balancer.py` (BETTI Core Balancer).

Modelling conventions:
* Python `int` is `Int`; Python `float` (times, cooldowns, ratios) is `ℚ`.
  The claims never depend on binary floating-point rounding.
* `time.time()` is a parameter: each operation receives the clock value(s)
  it would read.  `start_task` reads the clock twice in the source (once
  inside `can_run`, once before the mutation block), so it takes two time
  parameters `t_check` and `t_commit`.
* The singleton plumbing (`get_instance`, `configure` resetting the
  singleton) is not needed by the claims; operations take the
  `BalancerConfig` and `BalancerStats` explicitly and return the new stats.
* Each `with self._state_lock:` block of the source is one atomic step.
  `start_task` consists of TWO such blocks (the one inside `can_run` and
  the mutation block); the interleaving machine below reflects exactly
  that decomposition.
-/

/-- Task weight classification (`TaskWeight` enum: LIGHT, MEDIUM, HEAVY). -/
inductive TaskWeight where
  | light
  | medium
  | heavy
deriving DecidableEq, Repr

/-- Configuration for the balancer (`BalancerConfig` dataclass).  The
dataclass performs no validation: any field values are stored as given. -/
structure BalancerConfig where
  max_parallel_heavy : Int := 6
  max_parallel_medium : Int := 12
  cooldown_heavy : ℚ := 1/50
  cooldown_medium : ℚ := 1/200
  skip_yield_time : ℚ := 1/1000
  recovery_factor : ℚ := 4/5
deriving DecidableEq

/-- Runtime statistics (`BalancerStats` dataclass).  Note: there are no
fields at all for the `light` class. -/
structure BalancerStats where
  heavy_running : Int := 0
  medium_running : Int := 0
  heavy_completed : Int := 0
  medium_completed : Int := 0
  skips : Int := 0
  last_heavy_time : ℚ := 0
  last_medium_time : ℚ := 0
deriving DecidableEq

/-- The default-constructed `BalancerConfig()`. -/
def defaultConfig : BalancerConfig := {}

/-- The fresh zeroed `BalancerStats()`. -/
def initStats : BalancerStats := {}

/-- `BettiBalancer.can_run` (lines 129-163): the whole call is one critical
section.  Returns the boolean result and the stats after the call
(`skips` is incremented exactly when the result is `false`). -/
def can_run (cfg : BalancerConfig) (now : ℚ) (weight : TaskWeight)
    (s : BalancerStats) : Bool × BalancerStats :=
  match weight with
  | .light => (true, s)
  | .heavy =>
      -- too_busy: running >= max_parallel; too_soon: now - last < cooldown
      if cfg.max_parallel_heavy ≤ s.heavy_running ∨
          now - s.last_heavy_time < cfg.cooldown_heavy then
        (false, { s with skips := s.skips + 1 })
      else (true, s)
  | .medium =>
      if cfg.max_parallel_medium ≤ s.medium_running ∨
          now - s.last_medium_time < cfg.cooldown_medium then
        (false, { s with skips := s.skips + 1 })
      else (true, s)

/-- The second critical section of `BettiBalancer.start_task`
(lines 174-180): the mutation block executed after `can_run` succeeded. -/
def start_commit (now : ℚ) (weight : TaskWeight) (s : BalancerStats) :
    BalancerStats :=
  match weight with
  | .heavy => { s with heavy_running := s.heavy_running + 1, last_heavy_time := now }
  | .medium => { s with medium_running := s.medium_running + 1, last_medium_time := now }
  | .light => s

/-- `BettiBalancer.start_task` (lines 165-182) executed sequentially:
the `can_run` critical section (clock read `t_check`), then, only on
success, the mutation critical section (clock read `t_commit`). -/
def start_task (cfg : BalancerConfig) (t_check t_commit : ℚ)
    (weight : TaskWeight) (s : BalancerStats) : Bool × BalancerStats :=
  let p := can_run cfg t_check weight s
  if p.1 then (true, start_commit t_commit weight p.2)
  else (false, p.2)

/-- `BettiBalancer.end_task` (lines 184-192): decrement with a floor at 0
and bump `completed`, for HEAVY and MEDIUM only; LIGHT matches no branch
and the stats are untouched. -/
def end_task (weight : TaskWeight) (s : BalancerStats) : BalancerStats :=
  match weight with
  | .heavy =>
      { s with heavy_running := max 0 (s.heavy_running - 1),
               heavy_completed := s.heavy_completed + 1 }
  | .medium =>
      { s with medium_running := max 0 (s.medium_running - 1),
               medium_completed := s.medium_completed + 1 }
  | .light => s

/-- The derived `skip_rate` entry of `BalancerStats.to_dict` (line 89):
`skips / max(1, heavy_completed + skips)`. -/
def skip_rate (s : BalancerStats) : ℚ :=
  (s.skips : ℚ) / ((max 1 (s.heavy_completed + s.skips) : Int) : ℚ)

/-- A value rendered as Python's `f"{x:.4f}"` would render it, up to the
half-even tie rule of binary floats (ties never occur in the claims). -/
def formatFixed4 (q : ℚ) : String :=
  let n : Int := ⌊q * 10000 + 1/2⌋
  let fracStr := toString (n % 10000).toNat
  let pad := String.mk (List.replicate (4 - fracStr.length) '0') ++ fracStr
  toString (n / 10000) ++ "." ++ pad

/-- The `lines` list built by `get_balancer_metrics` (lines 356-372),
rendered from a stats value. -/
def get_balancer_metrics_lines (s : BalancerStats) : List String :=
  [ "# HELP betti_heavy_running Current number of heavy tasks running",
    "# TYPE betti_heavy_running gauge",
    "betti_heavy_running " ++ toString s.heavy_running,
    "",
    "# HELP betti_heavy_completed Total heavy tasks completed",
    "# TYPE betti_heavy_completed counter",
    "betti_heavy_completed " ++ toString s.heavy_completed,
    "",
    "# HELP betti_skips Total tasks skipped for balance",
    "# TYPE betti_skips counter",
    "betti_skips " ++ toString s.skips,
    "",
    "# HELP betti_skip_rate Ratio of skips to total attempts",
    "# TYPE betti_skip_rate gauge",
    "betti_skip_rate " ++ formatFixed4 (skip_rate s) ]

/-- `get_balancer_metrics` (line 374): the lines joined with newlines. -/
def get_balancer_metrics (s : BalancerStats) : String :=
  String.intercalate "\n" (get_balancer_metrics_lines s)

/-- The `skip_action = "skip"` branch of the `balanced` decorator
(lines 277-286): one `start_task` call; on failure return `none` (the
"not run" signal) without running the work; on success run the work and
call `end_task` in a `finally`, so the work's outcome — normal value or
propagated error, modelled as `Except` — passes through unchanged with
`end_task` already applied. -/
def balanced_skip {E A : Type} (cfg : BalancerConfig) (t_check t_commit : ℚ)
    (weight : TaskWeight) (work : Except E A) (s : BalancerStats) :
    Option (Except E A) × BalancerStats :=
  let p := start_task cfg t_check t_commit weight s
  if p.1 then (some work, end_task weight p.2)
  else (none, p.2)

/-!
Interleaving semantics for concurrent `start_task` callers.

The source guards state with `self._state_lock`, but `start_task` is two
separate lock acquisitions: the one inside `self.can_run(weight)` and the
mutation block.  Between them the lock is free, so another thread may run.
Each thread below executes one `start_task(HEAVY)` call as two atomic
steps; a schedule chooses which thread steps next.
-/

/-- Progress of one thread through its `start_task` call: not yet at the
check, past a successful check but before the mutation block, or returned
with a result. -/
inductive Phase where
  | idle
  | admitted
  | done (res : Bool)
deriving DecidableEq, Repr

/-- One concurrent caller of `start_task(HEAVY)`: the two clock values its
call would read. -/
structure RaceThread where
  t_check : ℚ
  t_commit : ℚ
deriving DecidableEq

/-- Shared state of the interleaved execution: the balancer stats plus
each thread's phase. -/
structure RaceState where
  stats : BalancerStats
  phases : List Phase
deriving DecidableEq

/-- Let thread `i` take its next atomic step (one lock-protected section
of its `start_task(HEAVY)` call); any other index is a no-op. -/
def raceStep (cfg : BalancerConfig) (threads : List RaceThread)
    (st : RaceState) (i : Nat) : RaceState :=
  match st.phases.get? i, threads.get? i with
  | some Phase.idle, some th =>
      let p := can_run cfg th.t_check TaskWeight.heavy st.stats
      if p.1 then { stats := p.2, phases := st.phases.set i Phase.admitted }
      else { stats := p.2, phases := st.phases.set i (Phase.done false) }
  | some Phase.admitted, some th =>
      { stats := start_commit th.t_commit TaskWeight.heavy st.stats,
        phases := st.phases.set i (Phase.done true) }
  | _, _ => st

/-- Run a schedule of thread indices from a given race state. -/
def runRace (cfg : BalancerConfig) (threads : List RaceThread)
    (sched : List Nat) (st : RaceState) : RaceState :=
  sched.foldl (raceStep cfg threads) st

/-- Sanity of the decomposition: a single thread scheduled for both of its
steps in a row performs exactly one sequential `start_task` call. -/
theorem runRace_single (cfg : BalancerConfig) (th : RaceThread)
    (s : BalancerStats) :
    runRace cfg [th] [0, 0] ⟨s, [Phase.idle]⟩ =
      ⟨(start_task cfg th.t_check th.t_commit TaskWeight.heavy s).2,
       [Phase.done (start_task cfg th.t_check th.t_commit TaskWeight.heavy s).1]⟩ := by
  have h := can_run cfg th.t_check TaskWeight.heavy s
  simp only [runRace, List.foldl, raceStep, start_task]
  cases hp : (can_run cfg th.t_check TaskWeight.heavy s).1 <;>
    simp [hp, raceStep, List.get?, List.set]

/-!
Sequential call traces on one weight class.
-/

/-- A call on the balancer for a fixed weight class: `start` carries the
two clock readings of `start_task`; `finish` is an `end_task` call. -/
inductive BalancerCall where
  | start (t_check t_commit : ℚ)
  | finish
deriving DecidableEq

/-- Apply one call of the trace to the stats. -/
def applyCall (cfg : BalancerConfig) (weight : TaskWeight)
    (s : BalancerStats) : BalancerCall → BalancerStats
  | .start tc tm => (start_task cfg tc tm weight s).2
  | .finish => end_task weight s

/-- Run a finite sequence of `start_task`/`end_task` calls on one weight
class. -/
def runCalls (cfg : BalancerConfig) (weight : TaskWeight)
    (s : BalancerStats) (calls : List BalancerCall) : BalancerStats :=
  calls.foldl (applyCall cfg weight) s

/-- The `running` counter of a weight class (the `light` class has none;
read it as 0). -/
def runningOf : TaskWeight → BalancerStats → Int
  | .heavy, s => s.heavy_running
  | .medium, s => s.medium_running
  | .light, _ => 0

/-- The parallelism ceiling of a weight class (the `light` class has
none; read it as 0). -/
def maxParallelOf (cfg : BalancerConfig) : TaskWeight → Int
  | .heavy => cfg.max_parallel_heavy
  | .medium => cfg.max_parallel_medium
  | .light => 0

/-- Invariant for one weight class: the running counter is between 0 and
the class ceiling. -/
def statsInv (cfg : BalancerConfig) (weight : TaskWeight)
    (s : BalancerStats) : Prop :=
  0 ≤ runningOf weight s ∧ runningOf weight s ≤ maxParallelOf cfg weight

theorem applyCall_statsInv (cfg : BalancerConfig) (weight : TaskWeight)
    (hmax : 0 ≤ maxParallelOf cfg weight) (s : BalancerStats)
    (c : BalancerCall) (h : statsInv cfg weight s) :
    statsInv cfg weight (applyCall cfg weight s c) := by
  obtain ⟨h0, h1⟩ := h
  cases c with
  | finish =>
      cases weight with
      | light => exact ⟨h0, h1⟩
      | heavy =>
          refine ⟨le_max_left _ _, max_le hmax ?_⟩
          simp only [runningOf] at h1 ⊢
          omega
      | medium =>
          refine ⟨le_max_left _ _, max_le hmax ?_⟩
          simp only [runningOf] at h1 ⊢
          omega
  | start tc tm =>
      cases weight with
      | light => exact ⟨h0, h1⟩
      | heavy =>
          simp only [runningOf, maxParallelOf] at h0 h1 hmax
          by_cases hcond : cfg.max_parallel_heavy ≤ s.heavy_running ∨
              tc - s.last_heavy_time < cfg.cooldown_heavy
          · simp only [applyCall, start_task, can_run, if_pos hcond]
            simpa [statsInv, runningOf, maxParallelOf] using ⟨h0, h1⟩
          · have hb : ¬cfg.max_parallel_heavy ≤ s.heavy_running :=
              fun hle => hcond (Or.inl hle)
            simp only [applyCall, start_task, can_run, if_neg hcond]
            simp only [statsInv, runningOf, maxParallelOf, start_commit]
            constructor <;> simp <;> omega
      | medium =>
          simp only [runningOf, maxParallelOf] at h0 h1 hmax
          by_cases hcond : cfg.max_parallel_medium ≤ s.medium_running ∨
              tc - s.last_medium_time < cfg.cooldown_medium
          · simp only [applyCall, start_task, can_run, if_pos hcond]
            simpa [statsInv, runningOf, maxParallelOf] using ⟨h0, h1⟩
          · have hb : ¬cfg.max_parallel_medium ≤ s.medium_running :=
              fun hle => hcond (Or.inl hle)
            simp only [applyCall, start_task, can_run, if_neg hcond]
            simp only [statsInv, runningOf, maxParallelOf, start_commit]
            constructor <;> simp <;> omega

theorem runCalls_statsInv (cfg : BalancerConfig) (weight : TaskWeight)
    (hmax : 0 ≤ maxParallelOf cfg weight) (calls : List BalancerCall) :
    ∀ s : BalancerStats, statsInv cfg weight s →
      statsInv cfg weight (runCalls cfg weight s calls) := by
  induction calls with
  | nil => intro s h; exact h
  | cons c cs ih =>
      intro s h
      exact ih (applyCall cfg weight s c) (applyCall_statsInv cfg weight hmax s c h)

/-- Configuration for the C1 interleaving: a heavy ceiling of 1 and a zero
heavy cooldown, as in the claim's scenario. -/
def cfgC1 : BalancerConfig :=
  { max_parallel_heavy := 1, cooldown_heavy := 0 }

/-- C1: the claim says `startTask` performs its admission check and its
state mutation as ONE atomic critical section, so that under a ceiling of
1 two concurrent callers can never both be admitted.  The source instead
takes the state lock twice (`can_run` is its own critical section, the
mutation block another), so the schedule "A checks, B checks, A commits,
B commits" admits BOTH callers: both calls return true and the running
counter reaches 2 under a ceiling of 1.  This theorem evaluates the
two-critical-section interleaving of the source at that schedule. -/
theorem C1_race_two_admitted :
    runRace cfgC1 [⟨100, 100⟩, ⟨100, 100⟩] [0, 1, 0, 1]
        ⟨initStats, [Phase.idle, Phase.idle]⟩ =
      ⟨{ heavy_running := 2, last_heavy_time := 100 },
       [Phase.done true, Phase.done true]⟩ := by
  norm_num [runRace, raceStep, can_run, start_commit, cfgC1, initStats,
    List.get?, List.set, List.foldl]

/-- C2: for every finite sequence of `start_task`/`end_task` calls on the
same weight class (medium or heavy), starting from fresh stats with a
non-negative ceiling for that class, the running counter of that class
never goes negative and never exceeds the ceiling. -/
theorem C2_running_bounds (cfg : BalancerConfig) (weight : TaskWeight)
    (calls : List BalancerCall) (hw : weight = .medium ∨ weight = .heavy)
    (hmax : 0 ≤ maxParallelOf cfg weight) :
    0 ≤ runningOf weight (runCalls cfg weight initStats calls) ∧
      runningOf weight (runCalls cfg weight initStats calls) ≤
        maxParallelOf cfg weight := by
  have h0 : runningOf weight initStats = 0 := by
    rcases hw with h | h <;> subst h <;> rfl
  exact runCalls_statsInv cfg weight hmax calls initStats
    ⟨by rw [h0], by rw [h0]; exact hmax⟩

/-- Witness for C2 at a concrete trace: two admissions and two
completions on the heavy class under the default configuration. -/
theorem C2_witness :
    0 ≤ runningOf TaskWeight.heavy (runCalls defaultConfig TaskWeight.heavy
        initStats [.start 100 100, .start 200 200, .finish, .finish]) ∧
      runningOf TaskWeight.heavy (runCalls defaultConfig TaskWeight.heavy
        initStats [.start 100 100, .start 200 200, .finish, .finish]) ≤
      maxParallelOf defaultConfig TaskWeight.heavy :=
  C2_running_bounds defaultConfig TaskWeight.heavy
    [.start 100 100, .start 200 200, .finish, .finish]
    (Or.inr rfl) (by decide)

/-- Stats exhibiting the C3 divergence: medium work completed but no heavy
work, with some rejected attempts. -/
def statsC3 : BalancerStats := { medium_completed := 5, skips := 5 }

/-- Counterexample to C3: the claim says the skip rate divides by the
completed total over ALL weight classes plus the rejected attempts; the
source divides by `heavy_completed + skips` only.  With 5 medium
completions, 0 heavy completions and 5 skips the source yields 1 while
the claimed formula yields 1/2. -/
theorem C3_counterexample :
    skip_rate statsC3 ≠
      (statsC3.skips : ℚ) /
        ((statsC3.heavy_completed + statsC3.medium_completed + statsC3.skips : Int) : ℚ) := by
  have hmax : max (1 : Int) (statsC3.heavy_completed + statsC3.skips) = 5 := by decide
  rw [skip_rate, hmax]
  norm_num [statsC3]

/-- C3 amended: the skip rate divides the rejected-attempt count by
`max(1, heavy_completed + skips)` — only the HEAVY completed count enters;
whenever `heavy_completed + skips` is positive this is
`skips / (heavy_completed + skips)`, and it is 0 when both
`heavy_completed` and `skips` are 0. -/
theorem C3_skip_rate (s : BalancerStats) :
    (0 < s.heavy_completed + s.skips →
      skip_rate s = (s.skips : ℚ) / ((s.heavy_completed + s.skips : Int) : ℚ)) ∧
    (s.heavy_completed = 0 ∧ s.skips = 0 → skip_rate s = 0) := by
  constructor
  · intro h
    rw [skip_rate, max_eq_right (by omega : (1 : Int) ≤ s.heavy_completed + s.skips)]
  · rintro ⟨h1, h2⟩
    simp [skip_rate, h1, h2]

/-- Witness for C3 at a concrete state with 3 heavy completions and 1
rejected attempt. -/
theorem C3_witness :
    (0 < ({ heavy_completed := 3, skips := 1 } : BalancerStats).heavy_completed +
        ({ heavy_completed := 3, skips := 1 } : BalancerStats).skips) ∧
    skip_rate { heavy_completed := 3, skips := 1 } =
      ((({ heavy_completed := 3, skips := 1 } : BalancerStats).skips : Int) : ℚ) /
        ((({ heavy_completed := 3, skips := 1 } : BalancerStats).heavy_completed +
          ({ heavy_completed := 3, skips := 1 } : BalancerStats).skips : Int) : ℚ) :=
  ⟨by decide, (C3_skip_rate { heavy_completed := 3, skips := 1 }).1 (by decide)⟩

/-- Stats with nonzero counters everywhere, used to evaluate
`end_task(LIGHT)`. -/
def statsC4 : BalancerStats :=
  { heavy_running := 2, medium_running := 1, heavy_completed := 3,
    medium_completed := 4, skips := 5 }

/-- Counterexample to C4: the claim says `endTask` increments
`completed[weight]` by one and floors the running counter for EVERY
weight class, the light class included.  The source's `end_task` has
branches only for HEAVY and MEDIUM (the stats hold no light counters at
all), so `end_task(LIGHT)` changes nothing: no completed counter is
incremented and no running counter is decremented. -/
theorem C4_counterexample :
    end_task TaskWeight.light statsC4 = statsC4 ∧
      (end_task TaskWeight.light statsC4).heavy_completed +
        (end_task TaskWeight.light statsC4).medium_completed =
      statsC4.heavy_completed + statsC4.medium_completed :=
  ⟨rfl, rfl⟩

/-- C4 amended: for the MEDIUM and HEAVY classes `end_task`
unconditionally sets `running` to `max(0, running - 1)` (in particular it
is safe at 0) and increments `completed` by exactly one, leaving the
other class's counters, `skips` and the admission times unchanged; for
the LIGHT class `end_task` is a no-op. -/
theorem C4_end_task (s : BalancerStats) :
    ((end_task TaskWeight.heavy s).heavy_running = max 0 (s.heavy_running - 1) ∧
     (end_task TaskWeight.heavy s).heavy_completed = s.heavy_completed + 1 ∧
     (end_task TaskWeight.heavy s).medium_running = s.medium_running ∧
     (end_task TaskWeight.heavy s).medium_completed = s.medium_completed ∧
     (end_task TaskWeight.heavy s).skips = s.skips ∧
     (end_task TaskWeight.heavy s).last_heavy_time = s.last_heavy_time ∧
     (end_task TaskWeight.heavy s).last_medium_time = s.last_medium_time) ∧
    ((end_task TaskWeight.medium s).medium_running = max 0 (s.medium_running - 1) ∧
     (end_task TaskWeight.medium s).medium_completed = s.medium_completed + 1 ∧
     (end_task TaskWeight.medium s).heavy_running = s.heavy_running ∧
     (end_task TaskWeight.medium s).heavy_completed = s.heavy_completed ∧
     (end_task TaskWeight.medium s).skips = s.skips ∧
     (end_task TaskWeight.medium s).last_heavy_time = s.last_heavy_time ∧
     (end_task TaskWeight.medium s).last_medium_time = s.last_medium_time) ∧
    end_task TaskWeight.light s = s :=
  ⟨⟨rfl, rfl, rfl, rfl, rfl, rfl, rfl⟩,
   ⟨rfl, rfl, rfl, rfl, rfl, rfl, rfl⟩, rfl⟩

/-- A naive substring test on character lists, used to state which metric
names occur in the rendered exposition text. -/
def hasSubstring (pat : List Char) : List Char → Bool
  | [] => pat.isEmpty
  | c :: cs => pat.isPrefixOf (c :: cs) || hasSubstring pat cs

/-- Stats with medium-class activity only, used to evaluate the metrics
exporter. -/
def statsC5 : BalancerStats := { medium_running := 3, medium_completed := 4 }

/-- Counterexample to C5: the claim says the exporter renders a gauge line
for the running count and a counter line for the completed count of EACH
throttled class (heavy and medium).  At a snapshot with 3 medium tasks
running and 4 completed, no rendered line mentions `medium` at all: the
source renders heavy-class lines, `betti_skips` and `betti_skip_rate`
only. -/
theorem C5_counterexample :
    statsC5.medium_running = 3 ∧
      (get_balancer_metrics_lines statsC5).all
        (fun l => !(hasSubstring "medium".toList l.toList)) = true := by
  have hrate : skip_rate statsC5 = 0 := by simp [skip_rate, statsC5]
  have hfmt : formatFixed4 0 = "0.0000" := by
    norm_num [formatFixed4]
    rfl
  refine ⟨rfl, ?_⟩
  rw [get_balancer_metrics_lines, hrate, hfmt]
  decide

/-- C5 amended: for every stats snapshot the exporter renders a flat
line-oriented text with one gauge-style line for the HEAVY running count,
one counter-style line for the HEAVY completed count, one counter line
for the rejected attempts and one gauge line for the derived skip rate
(the medium class is not rendered). -/
theorem C5_metrics (s : BalancerStats) :
    "# TYPE betti_heavy_running gauge" ∈ get_balancer_metrics_lines s ∧
    ("betti_heavy_running " ++ toString s.heavy_running) ∈
      get_balancer_metrics_lines s ∧
    "# TYPE betti_heavy_completed counter" ∈ get_balancer_metrics_lines s ∧
    ("betti_heavy_completed " ++ toString s.heavy_completed) ∈
      get_balancer_metrics_lines s ∧
    "# TYPE betti_skips counter" ∈ get_balancer_metrics_lines s ∧
    ("betti_skips " ++ toString s.skips) ∈ get_balancer_metrics_lines s ∧
    "# TYPE betti_skip_rate gauge" ∈ get_balancer_metrics_lines s ∧
    ("betti_skip_rate " ++ formatFixed4 (skip_rate s)) ∈
      get_balancer_metrics_lines s := by
  refine ⟨?_, ?_, ?_, ?_, ?_, ?_, ?_, ?_⟩ <;> simp [get_balancer_metrics_lines]

/-- Counterexample to C6: the claim says constructing a configuration
with a negative ceiling or cooldown fails (is rejected).  The dataclass
constructor performs no validation: `BalancerConfig(max_parallel_heavy=-1,
cooldown_heavy=-1, ...)` succeeds, stores the negative values unchanged,
and the resulting configuration is used by admission checks (here it
rejects a heavy task on fresh stats because `-1 <= 0`). -/
theorem C6_counterexample :
    (BalancerConfig.mk (-1) 12 (-1) (5/1000) (1/1000) (4/5)).max_parallel_heavy = -1 ∧
    (BalancerConfig.mk (-1) 12 (-1) (5/1000) (1/1000) (4/5)).cooldown_heavy = -1 ∧
    (can_run (BalancerConfig.mk (-1) 12 (-1) (5/1000) (1/1000) (4/5)) 100
        TaskWeight.heavy initStats).1 = false := by
  refine ⟨rfl, rfl, ?_⟩
  norm_num [can_run, initStats]

/-- C6 amended: construction never rejects or clamps: a negative ceiling
and a negative cooldown are stored unchanged, and a negative heavy
ceiling then makes every heavy admission check fail (the balancer runs
with the invalid value instead of failing at startup). -/
theorem C6_no_validation (mph mpm : Int) (ch cm syt rf : ℚ) (now : ℚ)
    (s : BalancerStats) (hneg : mph < 0) (hrun : 0 ≤ s.heavy_running) :
    (BalancerConfig.mk mph mpm ch cm syt rf).max_parallel_heavy = mph ∧
    (BalancerConfig.mk mph mpm ch cm syt rf).cooldown_heavy = ch ∧
    (can_run (BalancerConfig.mk mph mpm ch cm syt rf) now TaskWeight.heavy s).1 = false := by
  refine ⟨rfl, rfl, ?_⟩
  have hb : mph ≤ s.heavy_running := by omega
  simp [can_run, hb]

/-- Witness for C6 with ceiling -3 on fresh stats. -/
theorem C6_witness :
    ((-3 : Int) < 0) ∧ (0 ≤ initStats.heavy_running) ∧
    ((BalancerConfig.mk (-3) 12 (1/50) (1/200) (1/1000) (4/5)).max_parallel_heavy = -3 ∧
     (BalancerConfig.mk (-3) 12 (1/50) (1/200) (1/1000) (4/5)).cooldown_heavy = 1/50 ∧
     (can_run (BalancerConfig.mk (-3) 12 (1/50) (1/200) (1/1000) (4/5)) 100
        TaskWeight.heavy initStats).1 = false) :=
  ⟨by decide, by decide,
   C6_no_validation (-3) 12 (1/50) (1/200) (1/1000) (4/5) 100 initStats
     (by decide) (by decide)⟩

/-- C7: `can_run(LIGHT)` always returns true and leaves the stats
untouched; for HEAVY and MEDIUM the result is the negation of
(running >= maxParallel or now - lastAdmissionTime < cooldown), and the
post-state is unchanged on success and has exactly `skips` incremented by
one on failure (all other counters unchanged). -/
theorem C7_can_run (cfg : BalancerConfig) (now : ℚ) (s : BalancerStats) :
    can_run cfg now TaskWeight.light s = (true, s) ∧
    ((can_run cfg now TaskWeight.heavy s).1 = true ↔
      ¬(cfg.max_parallel_heavy ≤ s.heavy_running ∨
        now - s.last_heavy_time < cfg.cooldown_heavy)) ∧
    (can_run cfg now TaskWeight.heavy s).2 =
      (if (can_run cfg now TaskWeight.heavy s).1 then s
       else { s with skips := s.skips + 1 }) ∧
    ((can_run cfg now TaskWeight.medium s).1 = true ↔
      ¬(cfg.max_parallel_medium ≤ s.medium_running ∨
        now - s.last_medium_time < cfg.cooldown_medium)) ∧
    (can_run cfg now TaskWeight.medium s).2 =
      (if (can_run cfg now TaskWeight.medium s).1 then s
       else { s with skips := s.skips + 1 }) := by
  refine ⟨rfl, ?_, ?_, ?_, ?_⟩ <;> simp only [can_run] <;> split <;> simp_all

/-- Witness for C7: the light-class clause evaluated at a concrete state. -/
theorem C7_witness :
    can_run defaultConfig 100 TaskWeight.light initStats = (true, initStats) :=
  (C7_can_run defaultConfig 100 initStats).1

/-- C8: if `start_task(HEAVY)` succeeds (recording its commit-time clock
reading `tm1` as the last admission time), a second sequential
`start_task(HEAVY)` whose check happens at `tc2` with
`tc2 - tm1 < cooldown_heavy` returns false — the cooldown alone rejects
it, regardless of the running count. -/
theorem C8_cooldown (cfg : BalancerConfig) (tc1 tm1 tc2 tm2 : ℚ)
    (s s' : BalancerStats)
    (h1 : start_task cfg tc1 tm1 TaskWeight.heavy s = (true, s'))
    (h2 : tc2 - tm1 < cfg.cooldown_heavy) :
    (start_task cfg tc2 tm2 TaskWeight.heavy s').1 = false := by
  by_cases hc : cfg.max_parallel_heavy ≤ s.heavy_running ∨
      tc1 - s.last_heavy_time < cfg.cooldown_heavy
  · simp [start_task, can_run, hc] at h1
  · simp only [start_task, can_run, if_neg hc] at h1
    have hcommit : start_commit tm1 TaskWeight.heavy s = s' := by
      simpa using congrArg Prod.snd h1
    have hl : s'.last_heavy_time = tm1 := by
      rw [← hcommit]; rfl
    have hsoon : tc2 - s'.last_heavy_time < cfg.cooldown_heavy := by
      rw [hl]; exact h2
    simp [start_task, can_run, hsoon]

/-- The state after one successful heavy admission at time 100 from fresh
stats under the default configuration. -/
def statsC8 : BalancerStats := { heavy_running := 1, last_heavy_time := 100 }

/-- Witness for C8: a heavy admission at time 100 followed by a second
attempt checked at the same instant (0 < cooldown 0.02) is rejected. -/
theorem C8_witness :
    start_task defaultConfig 100 100 TaskWeight.heavy initStats = (true, statsC8) ∧
    ((100 : ℚ) - 100 < defaultConfig.cooldown_heavy) ∧
    (start_task defaultConfig 100 200 TaskWeight.heavy statsC8).1 = false := by
  have h1 : start_task defaultConfig 100 100 TaskWeight.heavy initStats =
      (true, statsC8) := by
    norm_num [start_task, can_run, start_commit, defaultConfig, initStats, statsC8]
  have h2 : (100 : ℚ) - 100 < defaultConfig.cooldown_heavy := by
    norm_num [defaultConfig]
  exact ⟨h1, h2, C8_cooldown defaultConfig 100 100 100 200 initStats statsC8 h1 h2⟩

/-- C9: the fail-fast ("skip") policy wrapper makes one `start_task`
call; if it returns false the wrapper yields the "not run" signal `none`
with the work not run and no `end_task`; if it returns true the wrapper
yields the work's own outcome unchanged — a normal value or a propagated
error alike — with `end_task` already applied on that exit path. -/
theorem C9_balanced_skip {E A : Type} (cfg : BalancerConfig) (tc tm : ℚ)
    (weight : TaskWeight) (work : Except E A) (s : BalancerStats) :
    ((start_task cfg tc tm weight s).1 = false →
      balanced_skip cfg tc tm weight work s =
        (none, (start_task cfg tc tm weight s).2)) ∧
    ((start_task cfg tc tm weight s).1 = true →
      balanced_skip cfg tc tm weight work s =
        (some work, end_task weight (start_task cfg tc tm weight s).2)) := by
  constructor <;> intro h <;> simp [balanced_skip, h]

/-- Witness for C9: an admitted unit of heavy work that raises an error;
the error is propagated and `end_task` has run. -/
theorem C9_witness :
    (start_task defaultConfig 100 100 TaskWeight.heavy initStats).1 = true ∧
    balanced_skip defaultConfig 100 100 TaskWeight.heavy
        (Except.error () : Except Unit Nat) initStats =
      (some (Except.error ()),
       end_task TaskWeight.heavy
         (start_task defaultConfig 100 100 TaskWeight.heavy initStats).2) := by
  have h : (start_task defaultConfig 100 100 TaskWeight.heavy initStats).1 = true := by
    norm_num [start_task, can_run, defaultConfig, initStats]
  exact ⟨h, (C9_balanced_skip defaultConfig 100 100 TaskWeight.heavy
    (Except.error ()) initStats).2 h⟩

/-- C10: light work is never accounted: `start_task(LIGHT)` returns true
and returns the stats entirely unchanged (no running, completed,
admission-time or skip counter moves), and `end_task(LIGHT)` likewise
leaves the stats unchanged. -/
theorem C10_light_unaccounted (cfg : BalancerConfig) (tc tm : ℚ)
    (s : BalancerStats) :
    start_task cfg tc tm TaskWeight.light s = (true, s) ∧
      end_task TaskWeight.light s = s :=
  ⟨rfl, rfl⟩
